import Mathlib

/-
Verification of the Brazil Fire Data API (src/api_fire_data.py) against its
natural-language specification.

The development is a shallow embedding of the single source file:

  * calendar arithmetic models Python `datetime` (ISO week number, weekday
    names, `YYYY-MM-DD` / `YYYY-MM` formatting);
  * `parseCsv` models `pd.read_csv` on the simple comma-separated text the
    NASA FIRMS feed returns (header line, one record per line, no quoting);
  * `transformTable` models lines 77-91 of the source: `pd.to_datetime` on
    the `acq_date` column, the four derived columns, the descending sort,
    and the expected-column fill;
  * `get_fire_data_brazil`, `read_fire_data` and `fire_data_summary` model
    the service function and the two data endpoints.

Machine reals: the feed carries short decimal literals (coordinates,
brightness, frp); they are embedded as exact rationals, which is faithful
for the record-shape, counting and null-ness properties proved here.

Responses are modelled as structured JSON content (a status code plus a
content value) together with the eager `JSONResponse` render: starlette
renders in the response constructor with plain `json.dumps`, which accepts
str/int/float/None cell values but rejects `pd.Timestamp` values,
`datetime.date` and numpy-integer dict keys, and `NaN` (`allow_nan=False`).
The embedding carries that acceptance test (`cellJsonOk`, `envelopeJsonOk`,
`summaryJsonOk`, and `floatMean` for the NaN mean), so a handler whose
content cannot serialize ends in `Except.error`, the model of the
unhandled exception in the source.
-/

namespace FireData

/-! ### Calendar model (Python `datetime`) -/

structure Date where
  year : Nat
  month : Nat
  day : Nat
deriving DecidableEq, Repr

/-- Comparison of `datetime` values restricted to calendar dates:
lexicographic on (year, month, day). -/
def Date.le (a b : Date) : Bool :=
  decide (a.year < b.year ∨ (a.year = b.year ∧
    (a.month < b.month ∨ (a.month = b.month ∧ a.day ≤ b.day))))

def isLeap (y : Nat) : Bool :=
  y % 4 = 0 && (y % 100 ≠ 0 || y % 400 = 0)

def daysInMonth (y m : Nat) : Nat :=
  if m = 2 then (if isLeap y then 29 else 28)
  else if m = 4 ∨ m = 6 ∨ m = 9 ∨ m = 11 then 30
  else 31

/-- Days since 1970-01-01 of a civil date (the standard days-from-civil
algorithm), used to obtain the weekday. -/
def daysFromCivil (dt : Date) : Int :=
  let y : Int := if dt.month ≤ 2 then (dt.year : Int) - 1 else (dt.year : Int)
  let era : Int := (if 0 ≤ y then y else y - 399) / 400
  let yoe : Int := y - era * 400
  let mp : Int := ((dt.month : Int) + 9) % 12
  let doy : Int := (153 * mp + 2) / 5 + (dt.day : Int) - 1
  let doe : Int := yoe * 365 + yoe / 4 - yoe / 100 + doy
  era * 146097 + doe - 719468

/-- ISO weekday, 1 = Monday .. 7 = Sunday (1970-01-01 was a Thursday). -/
def isoWeekday (dt : Date) : Nat :=
  ((daysFromCivil dt + 3) % 7).toNat + 1

/-- Ordinal day of the year, 1-based. -/
def dayOfYear (dt : Date) : Nat :=
  ((List.range dt.month).map (fun m => if m = 0 then 0 else daysInMonth dt.year m)).sum + dt.day

/-- Number of ISO weeks in a year (52 or 53). -/
def isoWeeksInYear (y : Nat) : Nat :=
  let p : Nat → Nat := fun yy => (yy + yy / 4 - yy / 100 + yy / 400) % 7
  52 + (if p y = 4 ∨ p (y - 1) = 3 then 1 else 0)

/-- ISO 8601 week number, modelling `Series.dt.isocalendar().week`. -/
def isoWeek (dt : Date) : Nat :=
  let w : Int := ((dayOfYear dt : Int) - (isoWeekday dt : Int) + 10) / 7
  if w < 1 then isoWeeksInYear (dt.year - 1)
  else if (isoWeeksInYear dt.year : Int) < w then 1
  else w.toNat

/-- English weekday name, modelling `Series.dt.day_name()`. -/
def dayName (dt : Date) : String :=
  match isoWeekday dt with
  | 1 => "Monday"
  | 2 => "Tuesday"
  | 3 => "Wednesday"
  | 4 => "Thursday"
  | 5 => "Friday"
  | 6 => "Saturday"
  | _ => "Sunday"

def pad2 (n : Nat) : String :=
  if n < 10 then "0" ++ toString n else toString n

def pad4 (n : Nat) : String :=
  if n < 10 then "000" ++ toString n
  else if n < 100 then "00" ++ toString n
  else if n < 1000 then "0" ++ toString n
  else toString n

/-- `strftime` with format `%Y-%m-%d`. -/
def formatYMD (dt : Date) : String :=
  pad4 dt.year ++ "-" ++ pad2 dt.month ++ "-" ++ pad2 dt.day

/-- `strftime` with format `%Y-%m`. -/
def formatYM (dt : Date) : String :=
  pad4 dt.year ++ "-" ++ pad2 dt.month

/-! ### Text primitives (Python `str` operations over the character list) -/

/-- Whitespace as trimmed by Python `str.strip()`. -/
def isSpaceChar (c : Char) : Bool :=
  c = ' ' || c = '\t' || c = '\n' || c = '\r' || c = '\x0b' || c = '\x0c'

/-- Number of characters left after `str.strip()`. -/
def strippedLen (s : String) : Nat :=
  (((s.data.dropWhile isSpaceChar).reverse.dropWhile isSpaceChar)).length

/-- Split a character list at every occurrence of `sep` (like `str.split`). -/
def splitOnChar (sep : Char) : List Char → List (List Char)
  | [] => [[]]
  | c :: cs =>
    let r := splitOnChar sep cs
    if c = sep then [] :: r
    else
      match r with
      | [] => [[c]]
      | h :: t => (c :: h) :: t

/-- Natural number denoted by a nonempty list of decimal digits. -/
def digitsToNat : List Char → Option Nat
  | [] => none
  | cs =>
    if cs.all Char.isDigit then
      some (cs.foldl (fun acc c => acc * 10 + (c.toNat - 48)) 0)
    else none

/-- Decimal literal parsing, modelling the numeric-dtype inference of
`pd.read_csv` on integer and fixed-point literals (the only numeric forms
the FIRMS feed emits). -/
def parseDecimal (s : String) : Option ℚ :=
  let (sign, body) : ℚ × List Char :=
    match s.data with
    | '-' :: rest => (-1, rest)
    | '+' :: rest => (1, rest)
    | cs => (1, cs)
  match splitOnChar '.' body with
  | [ip] => (digitsToNat ip).map (fun n => sign * (n : ℚ))
  | [ip, fp] =>
    match digitsToNat ip, digitsToNat fp with
    | some i, some f => some (sign * ((i : ℚ) + (f : ℚ) / ((10 : ℚ) ^ fp.length)))
    | _, _ => none
  | _ => none

/-- Calendar-date parsing of the feed's ISO `YYYY-MM-DD` strings, modelling
`pd.to_datetime` on the `acq_date` column: any string it cannot read as a
valid date makes the conversion (and hence the whole transform) fail. -/
def parseDate (s : String) : Option Date :=
  match splitOnChar '-' s.data with
  | [ys, ms, ds] =>
    match digitsToNat ys, digitsToNat ms, digitsToNat ds with
    | some y, some m, some d =>
      if 1 ≤ m ∧ m ≤ 12 ∧ 1 ≤ d ∧ d ≤ daysInMonth y m then some ⟨y, m, d⟩ else none
    | _, _, _ => none
  | _ => none

/-! ### Raw tables and CSV parsing (`pd.read_csv`) -/

structure RawTable where
  header : List String
  rows : List (List String)
deriving DecidableEq, Repr

/-- Modelling `pd.read_csv(StringIO(text))` on the feed's plain
comma-separated text: the first nonblank line is the header, every later
nonblank line is one record, blank lines are skipped; a record whose field
count disagrees with the header makes the read fail (`ParserError`). -/
def parseCsv (text : String) : Except String RawTable :=
  let lines :=
    ((splitOnChar '\n' text.data).map
      (fun l => match l.reverse with
        | '\r' :: r => r.reverse
        | _ => l)).filter (fun l => l ≠ [])
  match lines with
  | [] => .error "EmptyDataError"
  | h :: rest =>
    let header := (splitOnChar ',' h).map (fun cs => String.mk cs)
    let rows := rest.map (fun l => (splitOnChar ',' l).map (fun cs => String.mk cs))
    if rows.all (fun r => r.length = header.length) then .ok ⟨header, rows⟩
    else .error "ParserError"

/-! ### Cells, rows, data frames -/

/-- One cell of the transformed frame. `num` covers the numeric dtypes,
`date` the `datetime64` column produced by `pd.to_datetime`, `nat` the
integer ISO week column, `null` a `None` fill. -/
inductive Cell where
  | null
  | str (s : String)
  | num (q : ℚ)
  | date (d : Date)
  | nat (n : Nat)
deriving DecidableEq, Repr

/-- One transformed row: the parsed `acq_date` value (the sort key) together
with the full column-name-to-cell record, as `to_dict(orient="records")`
would emit it. -/
structure Row where
  date : Date
  cells : List (String × Cell)
deriving DecidableEq, Repr

/-- The transformed frame: the column list of the `DataFrame` plus its rows. -/
structure Df where
  columns : List String
  rows : List Row
deriving DecidableEq, Repr

/-- Column lookup in a record (first matching name wins). -/
def dfLookup : List (String × Cell) → String → Option Cell
  | [], _ => none
  | (k, v) :: rest, c => if k = c then some v else dfLookup rest c

/-! ### The transform (source lines 77-91) -/

/-- The four columns added by lines 78-81, in insertion order. -/
def derivedColNames : List String :=
  ["data_coleta", "semana_ano", "mes_ano", "dia_semana"]

/-- Source lines 85-88: the fixed expected column list. -/
def expected_cols : List String :=
  ["latitude", "longitude", "bright_ti4", "acq_date", "acq_time",
   "confidence", "frp", "daynight", "semana_ano", "mes_ano"]

/-- A column of `pd.read_csv` output gets a numeric dtype exactly when every
one of its cells is a numeric literal. -/
def colNumeric (t : RawTable) (j : Nat) : Bool :=
  t.rows.all (fun r => (parseDecimal (r.getD j "")).isSome)

/-- The dtype-resolved value of the cell in column `j` of a row. -/
def typeCell (t : RawTable) (j : Nat) (v : String) : Cell :=
  if colNumeric t j then
    match parseDecimal v with
    | some q => .num q
    | none => .str v
  else .str v

/-- The upstream part of a transformed record: one cell per header column in
header order, with the `acq_date` column replaced in place by its parsed
date (line 77). The FIRMS header never collides with the derived column
names, so in-place overwrites of those never occur. -/
def headerCellsAux (t : RawTable) (d : Date) (r : List String) :
    Nat → List String → List (String × Cell)
  | _, [] => []
  | j, c :: rest =>
    (c, if c = "acq_date" then Cell.date d else typeCell t j (r.getD j "")) ::
      headerCellsAux t d r (j + 1) rest

/-- Derived cells of lines 78-81 for a row with parsed date `d`:
`data_coleta` is the wall-clock timestamp string taken at transform time. -/
def derivedCells (d : Date) (nowStr : String) : List (String × Cell) :=
  [("data_coleta", .str nowStr), ("semana_ano", .nat (isoWeek d)),
   ("mes_ano", .str (formatYM d)), ("dia_semana", .str (dayName d))]

/-- One derived row (lines 77-81 applied to one record). -/
def deriveRow (t : RawTable) (nowStr : String) (i : Nat) (r : List String) :
    Except String Row :=
  match parseDate (r.getD i "") with
  | none => .error "to_datetime"
  | some d => .ok ⟨d, headerCellsAux t d r 0 t.header ++ derivedCells d nowStr⟩

/-- Position of a column name in the header (first occurrence). -/
def indexOfStr (c : String) : List String → Option Nat
  | [] => none
  | h :: rest => if h = c then some 0 else (indexOfStr c rest).map (· + 1)

/-- Traverse a list with a fallible function, failing on the first failure. -/
def mapMExcept (f : α → Except ε β) : List α → Except ε (List β)
  | [] => .ok []
  | x :: xs =>
    match f x with
    | .error e => .error e
    | .ok y =>
      match mapMExcept f xs with
      | .error e => .error e
      | .ok ys => .ok (y :: ys)

/-- Lines 77-81 over the whole table: `pd.to_datetime(df[acq_date])` raises
(failing the whole transform) if the column is missing or any value is
unparseable; otherwise every row gets its derived columns. -/
def deriveRows (t : RawTable) (nowStr : String) : Except String (List Row) :=
  match indexOfStr "acq_date" t.header with
  | none => .error "KeyError"
  | some i => mapMExcept (deriveRow t nowStr i) t.rows

/-- Row comparison used by the sort: by the parsed `acq_date`. -/
def rowLeP (a b : Row) : Prop := Date.le a.date b.date = true

instance : DecidableRel rowLeP := fun a b => instDecidableEqBool (Date.le a.date b.date) true

/-- Line 82, `df.sort_values(acq_date, ascending=False)`: pandas `nargsort`
reverses the values and the index positions before the ascending argsort
and reverses the resulting indexer after it, so with a stable argsort
kernel the two reversals cancel on ties and rows with equal keys keep
their upstream relative order. The argsort kernel is embedded as a stable
sort (insertion sort), exactly the algorithm numpy argsort degenerates to
on small partitions; on large frames the default quicksort kernel promises
no particular tie order. -/
def sortRowsDesc (rows : List Row) : List Row :=
  (rows.reverse.insertionSort rowLeP).reverse

/-- Columns of the frame after the derivation lines, before the fill. -/
def dfColumnsPreFill (t : RawTable) : List String :=
  t.header ++ derivedColNames

/-- Lines 89-91: the expected columns absent from the frame, in expected
order; each is appended filled with `None`. -/
def fillCols (t : RawTable) : List String :=
  expected_cols.filter (fun c => ¬ (dfColumnsPreFill t).contains c)

/-- Append the `None`-filled absent expected columns to one record. -/
def fillRow (t : RawTable) (r : Row) : Row :=
  ⟨r.date, r.cells ++ (fillCols t).map (fun c => (c, Cell.null))⟩

/-- The whole transform, lines 77-91: derive, sort descending, fill. -/
def transformTable (t : RawTable) (nowStr : String) : Except String Df :=
  (deriveRows t nowStr).map (fun rows =>
    ⟨dfColumnsPreFill t ++ fillCols t, (sortRowsDesc rows).map (fillRow t)⟩)

/-! ### The service (`get_fire_data_brazil`, source lines 47-106) -/

def DAYS_DEFAULT : Int := 10

def AREA_COORDS : String := "-53.1,-25.3,-44.1,-19.8"

/-- The guard of line 49; when it holds, line 50 logs the out-of-range
warning and line 51 replaces `days` by 10. -/
def daysOutOfRange (days : Int) : Bool :=
  decide (days < 1 ∨ 10 < days)

/-- Lines 49-51: defensive re-validation of `days`. -/
def clampDays (days : Int) : Int :=
  if daysOutOfRange days then 10 else days

/-- Lines 53-56: the upstream URL. The date position is filled with the
caller-supplied `dateToday` string. -/
def buildUrl (mapKey : String) (days : Int) (dateToday : String) : String :=
  "https://firms.modaps.eosdis.nasa.gov/api/area/csv/" ++ mapKey ++
    "/VIIRS_NOAA20_NRT/" ++ AREA_COORDS ++ "/" ++ toString days ++ "/" ++ dateToday

/-- Module-level state fixed at process start: the API key from the
environment (line 15) and `date_today` (line 18), which is formatted from
the process-start date once at import and never refreshed. -/
structure AppState where
  mapKey : String
  dateToday : String
deriving DecidableEq, Repr

/-- Module import (lines 15 and 18): `date_today` is
`datetime.today().strftime(%Y-%m-%d)` evaluated at process start. -/
def initApp (mapKey : String) (startDate : Date) : AppState :=
  ⟨mapKey, formatYMD startDate⟩

/-- The observable outcome of `requests.get(url, timeout=60)`:
a response with a status code and a body text, a timeout
(`requests.exceptions.Timeout`), or another transport fault
(`requests.exceptions.RequestException`). -/
inductive FetchOutcome where
  | response (status : Nat) (text : String)
  | timeout
  | requestError
deriving DecidableEq, Repr

/-- The distinct classification branches of lines 63-74: each constructor is
one return-or-proceed site of the source, with its own log line. -/
inductive FetchClass where
  | httpError (status : Nat)
  | emptyResponse
  | timeout
  | requestError
  | readCsvError (msg : String)
  | noData
  | table (t : RawTable)
deriving DecidableEq, Repr

/-- Lines 60-74: classify the fetch outcome in source order — non-200 status
first (the condition of line 63 is written `status in [400, 403] or
status != 200`), then the short-body check on the stripped text, then the
CSV read, then the empty-frame check. -/
def classifyFetch (outcome : FetchOutcome) : FetchClass :=
  match outcome with
  | .timeout => .timeout
  | .requestError => .requestError
  | .response status text =>
    if status = 400 ∨ status = 403 ∨ status ≠ 200 then .httpError status
    else if strippedLen text < 10 then .emptyResponse
    else
      match parseCsv text with
      | .error e => .readCsvError e
      | .ok t => if t.rows.isEmpty then .noData else .table t

/-- The URL the service queries when handling a request: it depends only on
the process-start state and the (clamped) day count. -/
def serviceUrl (st : AppState) (days : Int) : String :=
  buildUrl st.mapKey (clampDays days) st.dateToday

/-- Source lines 47-106, `get_fire_data_brazil`: clamp `days`, build the
URL, fetch, classify, transform; every failure branch (and every exception,
caught by the handlers of lines 96-106) returns `None`. `fetch` is the
network oracle mapping the URL to the outcome of the GET; `nowStr` is the
wall-clock timestamp string used for the `data_coleta` column. -/
def get_fire_data_brazil (st : AppState) (nowStr : String)
    (fetch : String → FetchOutcome) (days : Int := DAYS_DEFAULT) : Option Df :=
  match classifyFetch (fetch (serviceUrl st days)) with
  | .table t =>
    match transformTable t nowStr with
    | .ok df => some df
    | .error _ => none
  | _ => none

/-! ### HTTP layer (source lines 121-170) -/

/-- Minimum of the `acq_date` column of a nonempty frame
(`df[acq_date].min()`); the default is irrelevant, the source only
evaluates it on nonempty frames. -/
def minDate : List Row → Date
  | [] => ⟨1970, 1, 1⟩
  | r :: rs => rs.foldl (fun acc x => if Date.le x.date acc then x.date else acc) r.date

/-- Maximum of the `acq_date` column of a nonempty frame. -/
def maxDate : List Row → Date
  | [] => ⟨1970, 1, 1⟩
  | r :: rs => rs.foldl (fun acc x => if Date.le acc x.date then x.date else acc) r.date

/-- The metadata object of `/fire_data_brazil` responses. -/
structure Metadata where
  total_records : Nat
  period_start : Option String
  period_end : Option String
  requested_days : Int
  collection_timestamp : String
  source : String
  coordinates : String
deriving DecidableEq, Repr

/-- The JSON content of a `/fire_data_brazil` response. -/
structure Envelope where
  metadata : Metadata
  data : List (List (String × Cell))
deriving DecidableEq, Repr

/-- Lines 140-151: the empty-but-well-shaped fallback payload. -/
def fallbackEnvelope (days : Int) (nowStr : String) : Envelope :=
  { metadata :=
      { total_records := 0
        period_start := none
        period_end := none
        requested_days := days
        collection_timestamp := nowStr
        source := "NASA FIRMS VIIRS_NOAA20_NRT"
        coordinates := AREA_COORDS }
    data := [] }

/-- Whether `json.dumps` accepts one cell value of a
`to_dict(orient="records")` record: Python str, int, float and `None`
serialize; a `pd.Timestamp` (the value of the `acq_date` column after
`pd.to_datetime`, which `to_dict` does not box to a native type) raises
`TypeError`. -/
def cellJsonOk : Cell → Bool
  | .date _ => false
  | _ => true

/-- The failure of the eager `JSONResponse` render (`starlette` renders the
body in the response constructor with plain `json.dumps`): an unhandled
`TypeError`, so the handler raises instead of answering. -/
inductive RenderError where
  | unserializable
deriving DecidableEq, Repr

/-- Whether `json.dumps` accepts the whole `/fire_data_brazil` content. -/
def envelopeJsonOk (env : Envelope) : Bool :=
  env.data.all (fun r => r.all (fun kv => cellJsonOk kv.2))

/-- The `JSONResponse(content=env, ...)` constructor of lines 137 and 152:
it renders eagerly, returning status 200 with the content when the content
serializes and raising otherwise. -/
def renderJson (env : Envelope) : Except RenderError (Nat × Envelope) :=
  if envelopeJsonOk env then .ok (200, env) else .error .unserializable

/-- Lines 121-152, the `/fire_data_brazil` handler: the `days` query
parameter has already passed the `ge=1, le=10` validation of the HTTP
layer. Both branches build a `JSONResponse` with default status 200; the
eager render raises on content it cannot serialize (the success branch
always carries `pd.Timestamp` cells in the `acq_date` position). -/
def read_fire_data (st : AppState) (nowStr : String)
    (fetch : String → FetchOutcome) (days : Int := DAYS_DEFAULT) :
    Except RenderError (Nat × Envelope) :=
  match get_fire_data_brazil st nowStr fetch days with
  | some df =>
    if df.rows.isEmpty then renderJson (fallbackEnvelope days nowStr)
    else
      renderJson
        { metadata :=
            { total_records := df.rows.length
              period_start := some (formatYMD (minDate df.rows))
              period_end := some (formatYMD (maxDate df.rows))
              requested_days := days
              collection_timestamp := nowStr
              source := "NASA FIRMS VIIRS_NOAA20_NRT"
              coordinates := AREA_COORDS }
          data := df.rows.map (·.cells) }
  | none => renderJson (fallbackEnvelope days nowStr)

/-! ### Summary endpoint (source lines 154-170) -/

/-- The numeric values of a column cell list, as pandas `mean` sees them
(`None` entries are masked out). -/
def numericCells (cells : List Cell) : List ℚ :=
  cells.filterMap (fun c => match c with | .num q => some q | _ => none)

/-- `float(series.mean())` for a column: the numeric mean when the column
holds at least one numeric value. When it holds none (an all-`None` filled
column, or a non-numeric dtype) the aggregation cannot produce a JSON
number — pandas yields `NaN` (or raises), and the `JSONResponse` render
rejects `NaN` (`allow_nan=False`) — so the handler ends in an unhandled
exception; that terminal failure is modelled here as `none`. -/
def floatMean (cells : List Cell) : Option ℚ :=
  match numericCells cells with
  | [] => none
  | qs => some (qs.sum / (qs.length : ℚ))

/-- The cell list of a named column of the frame. -/
def colCells (df : Df) (c : String) : List Cell :=
  df.rows.map (fun r => (dfLookup r.cells c).getD .null)

/-- The comparison `groupby` sorts group keys with, as a proposition. -/
def dateLeP (a b : Date) : Prop := Date.le a b = true

instance : DecidableRel dateLeP := fun a b => instDecidableEqBool (Date.le a b) true

/-- Grouped sizes as `groupby(...).size().to_dict()` produces them: one
entry per distinct key, keys in ascending order, each with its row count. -/
def groupCounts (r : κ → κ → Prop) [DecidableRel r] [DecidableEq κ]
    (keys : List κ) : List (κ × Nat) :=
  ((keys.insertionSort r).dedup).map (fun k => (k, keys.count k))

/-- Line 166: `df.groupby(df[acq_date].dt.date).size().to_dict()`. -/
def byDay (rows : List Row) : List (Date × Nat) :=
  groupCounts dateLeP (rows.map (·.date))

/-- Line 167: `df.groupby(semana_ano).size().to_dict()`; the column holds
the ISO week of each row's `acq_date`. -/
def byWeek (rows : List Row) : List (Nat × Nat) :=
  groupCounts (· ≤ ·) (rows.map (fun r => isoWeek r.date))

/-- The unhandled failures of the summary handler, which runs with no
exception handler: `meanOfNonNumeric` is `float` of a mean that produced no
JSON-representable number; `groupKeysUnserializable` is the eager
`JSONResponse` render rejecting the `by_day` dict keys (`datetime.date`
objects) and the `by_week` dict keys (numpy unsigned integers), neither of
which `json.dumps` accepts as a key. -/
inductive SummaryError where
  | meanOfNonNumeric
  | groupKeysUnserializable
deriving DecidableEq, Repr

structure OverallSummary where
  total_fires : Nat
  period_start : String
  period_end : String
  avg_brightness : ℚ
  avg_radiative_power : Option ℚ
deriving DecidableEq, Repr

/-- The JSON content of a successful `/fire_data_brazil/summary` response. -/
structure SummaryBody where
  overall_summary : OverallSummary
  by_day : List (Date × Nat)
  by_week : List (Nat × Nat)
deriving DecidableEq, Repr

/-- A summary response content: the full summary, or the empty fallback
`{overall_summary: {}, by_day: {}, by_week: {}}` of line 170. -/
inductive SummaryContent where
  | full (s : SummaryBody)
  | empty
deriving DecidableEq, Repr

/-- The summary dict literal of lines 158-168, evaluated on a nonempty
frame: building it computes `float(df[bright_ti4].mean())`, then — the
`frp in df.columns` guard of line 164 checked only after the transform has
already filled every expected column — `float(df[frp].mean())`; either
aggregation failing aborts the handler before the dict exists. -/
def buildSummaryBody (df : Df) : Except SummaryError SummaryBody :=
  match floatMean (colCells df "bright_ti4") with
  | none => .error .meanOfNonNumeric
  | some avgB =>
    let mkBody : Option ℚ → SummaryBody := fun avgF =>
      { overall_summary :=
          { total_fires := df.rows.length
            period_start := formatYMD (minDate df.rows)
            period_end := formatYMD (maxDate df.rows)
            avg_brightness := avgB
            avg_radiative_power := avgF }
        by_day := byDay df.rows
        by_week := byWeek df.rows }
    if df.columns.contains "frp" then
      match floatMean (colCells df "frp") with
      | none => .error .meanOfNonNumeric
      | some avgF => .ok (mkBody (some avgF))
    else .ok (mkBody none)

/-- Whether `json.dumps` accepts the full summary content: the `by_day`
keys are `datetime.date` objects and the `by_week` keys numpy unsigned
integers, so the content serializes only when both dicts are empty. -/
def summaryJsonOk (s : SummaryBody) : Bool :=
  s.by_day.isEmpty && s.by_week.isEmpty

/-- Lines 154-170, the `/fire_data_brazil/summary` handler. The happy path
runs with no exception handler, so an aggregation failure — or the eager
`JSONResponse` render rejecting the group-dict keys — escapes as an
unhandled exception (`Except.error`) instead of any JSON response. -/
def fire_data_summary (st : AppState) (nowStr : String)
    (fetch : String → FetchOutcome) (days : Int := DAYS_DEFAULT) :
    Except SummaryError (Nat × SummaryContent) :=
  match get_fire_data_brazil st nowStr fetch days with
  | some df =>
    if df.rows.isEmpty then .ok (200, .empty)
    else
      match buildSummaryBody df with
      | .error e => .error e
      | .ok s =>
        if summaryJsonOk s then .ok (200, .full s)
        else .error .groupKeysUnserializable
  | none => .ok (200, .empty)

/-! ### Basic lemmas about the embedding -/

theorem Date.le_total (a b : Date) : (Date.le a b || Date.le b a) = true := by
  simp only [Date.le, Bool.or_eq_true, decide_eq_true_eq]
  omega

theorem Date.le_trans {a b c : Date} (h1 : Date.le a b = true)
    (h2 : Date.le b c = true) : Date.le a c = true := by
  simp only [Date.le, decide_eq_true_eq] at h1 h2 ⊢
  omega

theorem Date.le_refl (a : Date) : Date.le a a = true := by
  have h := Date.le_total a a
  simpa using h

instance : IsTrans Row rowLeP :=
  ⟨fun _ _ _ h1 h2 => Date.le_trans h1 h2⟩

instance : IsTotal Row rowLeP :=
  ⟨fun a b => by
    have h := Date.le_total a.date b.date
    rw [Bool.or_eq_true] at h
    rcases h with h1 | h1
    · exact Or.inl h1
    · exact Or.inr h1⟩

theorem dfLookup_eq_none_iff (cells : List (String × Cell)) (c : String) :
    dfLookup cells c = none ↔ c ∉ cells.map Prod.fst := by
  induction cells with
  | nil => simp [dfLookup]
  | cons p rest ih =>
    obtain ⟨k, v⟩ := p
    by_cases h : k = c
    · subst h
      simp [dfLookup]
    · simp only [dfLookup, if_neg h, List.map_cons, List.mem_cons, ih]
      constructor
      · rintro hn (rfl | hc)
        · exact h rfl
        · exact hn hc
      · intro hn hc
        exact hn (Or.inr hc)

theorem dfLookup_isSome_iff (cells : List (String × Cell)) (c : String) :
    (dfLookup cells c).isSome = true ↔ c ∈ cells.map Prod.fst := by
  constructor
  · intro h
    by_contra hc
    rw [(dfLookup_eq_none_iff cells c).mpr hc] at h
    simp at h
  · intro hc
    rcases ho : dfLookup cells c with _ | v
    · exact absurd hc ((dfLookup_eq_none_iff cells c).mp ho)
    · simp

theorem dfLookup_append_of_none {a : List (String × Cell)} {c : String}
    (b : List (String × Cell)) (h : dfLookup a c = none) :
    dfLookup (a ++ b) c = dfLookup b c := by
  induction a with
  | nil => simp
  | cons p rest ih =>
    obtain ⟨k, v⟩ := p
    by_cases hk : k = c
    · simp [dfLookup, hk] at h
    · simp only [dfLookup, if_neg hk] at h
      simpa [dfLookup, hk] using ih h

theorem dfLookup_append_of_some {a : List (String × Cell)} {c : String} {v : Cell}
    (b : List (String × Cell)) (h : dfLookup a c = some v) :
    dfLookup (a ++ b) c = some v := by
  induction a with
  | nil => simp [dfLookup] at h
  | cons p rest ih =>
    obtain ⟨k, w⟩ := p
    by_cases hk : k = c
    · simp only [dfLookup, if_pos hk] at h
      simp [dfLookup, hk, h]
    · simp only [dfLookup, if_neg hk] at h
      simpa [dfLookup, hk] using ih h

theorem dfLookup_nullFill (cs : List String) (c : String) :
    c ∈ cs → dfLookup (cs.map (fun n => (n, Cell.null))) c = some Cell.null := by
  induction cs with
  | nil =>
    intro h
    cases h
  | cons k rest ih =>
    intro h
    by_cases hk : k = c
    · simp [dfLookup, hk]
    · rcases List.mem_cons.mp h with h | h
      · exact absurd h.symm hk
      · simpa [dfLookup, hk] using ih h

theorem map_fst_pairNull :
    ∀ (cs : List String), (cs.map (fun n => (n, Cell.null))).map Prod.fst = cs := by
  intro cs
  induction cs with
  | nil => rfl
  | cons c rest ih => simp [ih]

theorem headerCellsAux_keys (t : RawTable) (d : Date) (r : List String) :
    ∀ (j : Nat) (cs : List String), (headerCellsAux t d r j cs).map Prod.fst = cs := by
  intro j cs
  induction cs generalizing j with
  | nil => rfl
  | cons c rest ih => simp [headerCellsAux, ih]

theorem derivedCells_keys (d : Date) (nowStr : String) :
    (derivedCells d nowStr).map Prod.fst = derivedColNames := by
  simp [derivedCells, derivedColNames]

theorem fillRow_keys (t : RawTable) (r : Row) :
    (fillRow t r).cells.map Prod.fst = r.cells.map Prod.fst ++ fillCols t := by
  unfold fillRow
  rw [List.map_append, map_fst_pairNull]

theorem fillRow_date (t : RawTable) (r : Row) : (fillRow t r).date = r.date := rfl

theorem deriveRow_ok {t : RawTable} {nowStr : String} {i : Nat} {r : List String}
    {row : Row} (h : deriveRow t nowStr i r = .ok row) :
    parseDate (r.getD i "") = some row.date ∧
    row.cells = headerCellsAux t row.date r 0 t.header ++ derivedCells row.date nowStr := by
  unfold deriveRow at h
  rcases hp : parseDate (r.getD i "") with _ | d
  · rw [hp] at h
    cases h
  · rw [hp] at h
    cases h
    exact ⟨rfl, rfl⟩

theorem mapMExcept_ok_length {f : α → Except ε β} :
    ∀ {xs : List α} {ys : List β}, mapMExcept f xs = .ok ys → ys.length = xs.length := by
  intro xs
  induction xs with
  | nil =>
    intro ys h
    cases h
    rfl
  | cons x rest ih =>
    intro ys h
    unfold mapMExcept at h
    rcases hx : f x with e | y
    · rw [hx] at h
      cases h
    · rw [hx] at h
      rcases hrest : mapMExcept f rest with e | ys0
      · rw [hrest] at h
        cases h
      · rw [hrest] at h
        cases h
        simp [ih hrest]

theorem mapMExcept_ok_mem {f : α → Except ε β} :
    ∀ {xs : List α} {ys : List β}, mapMExcept f xs = .ok ys →
      ∀ y ∈ ys, ∃ x ∈ xs, f x = .ok y := by
  intro xs
  induction xs with
  | nil =>
    intro ys h
    cases h
    intro y hy
    cases hy
  | cons x rest ih =>
    intro ys h
    unfold mapMExcept at h
    rcases hx : f x with e | y0
    · rw [hx] at h
      cases h
    · rw [hx] at h
      rcases hrest : mapMExcept f rest with e | ys0
      · rw [hrest] at h
        cases h
      · rw [hrest] at h
        cases h
        intro y hy
        rcases List.mem_cons.mp hy with hy | hy
        · subst hy
          exact ⟨x, List.mem_cons_self x rest, hx⟩
        · obtain ⟨x0, hx0, hfx0⟩ := ih hrest y hy
          exact ⟨x0, List.mem_cons_of_mem x hx0, hfx0⟩

theorem mapMExcept_error_of_mem {f : α → Except ε β} {e : ε} :
    ∀ {xs : List α} {x : α}, x ∈ xs → f x = .error e →
      ∃ e2, mapMExcept f xs = .error e2 := by
  intro xs
  induction xs with
  | nil =>
    intro x hx
    cases hx
  | cons x0 rest ih =>
    intro x hx hfx
    unfold mapMExcept
    rcases hx0 : f x0 with e0 | y
    · exact ⟨e0, rfl⟩
    · rcases List.mem_cons.mp hx with hx1 | hx1
      · subst hx1
        rw [hfx] at hx0
        cases hx0
      · obtain ⟨e2, he2⟩ := ih hx1 hfx
        exact ⟨e2, by rw [he2]⟩

theorem indexOfStr_eq_none {c : String} :
    ∀ {l : List String}, c ∉ l → indexOfStr c l = none := by
  intro l
  induction l with
  | nil => intro _; rfl
  | cons h rest ih =>
    intro hn
    have hne : h ≠ c := fun he => hn (he ▸ List.mem_cons_self h rest)
    have : c ∉ rest := fun hc => hn (List.mem_cons_of_mem h hc)
    simp [indexOfStr, hne, ih this]

/-! ### Structural lemmas about the transform and the classifier -/

theorem transformTable_ok {t : RawTable} {nowStr : String} {df : Df}
    (h : transformTable t nowStr = .ok df) :
    ∃ rows, deriveRows t nowStr = .ok rows ∧
      df.columns = dfColumnsPreFill t ++ fillCols t ∧
      df.rows = (sortRowsDesc rows).map (fillRow t) := by
  unfold transformTable at h
  rcases hd : deriveRows t nowStr with e | rows
  · rw [hd] at h
    cases h
  · rw [hd] at h
    simp only [Except.map] at h
    cases h
    exact ⟨rows, rfl, rfl, rfl⟩

theorem transformTable_rows_length {t : RawTable} {nowStr : String} {df : Df}
    (h : transformTable t nowStr = .ok df) : df.rows.length = t.rows.length := by
  obtain ⟨rows, hd, _, hrows⟩ := transformTable_ok h
  unfold deriveRows at hd
  rcases hi : indexOfStr "acq_date" t.header with _ | i
  · rw [hi] at hd
    cases hd
  · rw [hi] at hd
    have hlen := mapMExcept_ok_length hd
    rw [hrows]
    simp [sortRowsDesc, hlen]

theorem transformTable_rows_mem {t : RawTable} {nowStr : String} {df : Df}
    (h : transformTable t nowStr = .ok df) :
    ∀ r ∈ df.rows, ∃ r0 raw i, raw ∈ t.rows ∧
      indexOfStr "acq_date" t.header = some i ∧
      deriveRow t nowStr i raw = .ok r0 ∧ r = fillRow t r0 := by
  obtain ⟨rows, hd, _, hrows⟩ := transformTable_ok h
  unfold deriveRows at hd
  rcases hi : indexOfStr "acq_date" t.header with _ | i
  · rw [hi] at hd
    cases hd
  · rw [hi] at hd
    intro r hr
    rw [hrows] at hr
    obtain ⟨r0, hr0, hfill⟩ := List.mem_map.mp hr
    have hr0rows : r0 ∈ rows := by
      have hm := hr0
      unfold sortRowsDesc at hm
      rw [List.mem_reverse, List.mem_insertionSort, List.mem_reverse] at hm
      exact hm
    obtain ⟨raw, hraw, hderive⟩ := mapMExcept_ok_mem hd r0 hr0rows
    exact ⟨r0, raw, i, hraw, rfl, hderive, hfill.symm⟩

theorem transformTable_row_keys {t : RawTable} {nowStr : String} {df : Df}
    (h : transformTable t nowStr = .ok df) :
    ∀ r ∈ df.rows, r.cells.map Prod.fst = df.columns := by
  intro r hr
  obtain ⟨rows, _, hcols, _⟩ := transformTable_ok h
  obtain ⟨r0, raw, i, _, _, hderive, hfill⟩ := transformTable_rows_mem h r hr
  obtain ⟨_, hcells⟩ := deriveRow_ok hderive
  rw [hfill, fillRow_keys, hcells, List.map_append, headerCellsAux_keys,
    derivedCells_keys, hcols]
  simp [dfColumnsPreFill]

theorem transformTable_sorted {t : RawTable} {nowStr : String} {df : Df}
    (h : transformTable t nowStr = .ok df) :
    df.rows.Pairwise (fun a b => Date.le b.date a.date = true) := by
  obtain ⟨rows, _, _, hrows⟩ := transformTable_ok h
  rw [hrows, List.pairwise_map]
  have hs := List.sorted_insertionSort rowLeP rows.reverse
  unfold sortRowsDesc
  rw [List.pairwise_reverse]
  exact hs.imp (fun hab => hab)

theorem mem_fillCols_iff (t : RawTable) (c : String) :
    c ∈ fillCols t ↔ c ∈ expected_cols ∧ c ∉ dfColumnsPreFill t := by
  simp [fillCols, List.mem_filter, List.contains]

theorem classifyFetch_table_ne_nil {o : FetchOutcome} {t : RawTable}
    (h : classifyFetch o = .table t) : t.rows ≠ [] := by
  cases o with
  | timeout => cases h
  | requestError => cases h
  | response status text =>
    unfold classifyFetch at h
    dsimp only at h
    by_cases hs : status = 400 ∨ status = 403 ∨ status ≠ 200
    · rw [if_pos hs] at h
      cases h
    · rw [if_neg hs] at h
      by_cases hlen : strippedLen text < 10
      · rw [if_pos hlen] at h
        cases h
      · rw [if_neg hlen] at h
        rcases hp : parseCsv text with e | t0
        · rw [hp] at h
          cases h
        · rw [hp] at h
          dsimp only at h
          by_cases he : t0.rows.isEmpty
          · rw [if_pos he] at h
            cases h
          · rw [if_neg he] at h
            cases h
            intro hnil
            exact he (List.isEmpty_iff.mpr hnil)

theorem groupCounts_mem_iff (r : κ → κ → Prop) [DecidableRel r] [DecidableEq κ]
    (keys : List κ) (k : κ) (n : Nat) :
    (k, n) ∈ groupCounts r keys ↔ k ∈ keys ∧ n = keys.count k := by
  unfold groupCounts
  rw [List.mem_map]
  constructor
  · rintro ⟨a, ha, heq⟩
    rw [Prod.mk.injEq] at heq
    obtain ⟨rfl, rfl⟩ := heq
    rw [List.mem_dedup, List.mem_insertionSort] at ha
    exact ⟨ha, rfl⟩
  · rintro ⟨hk, rfl⟩
    refine ⟨k, ?_, rfl⟩
    rw [List.mem_dedup, List.mem_insertionSort]
    exact hk

/-! ### Concrete fixtures used by witnesses and counterexamples -/

/-- A process started 2024-01-07 with API key `KEY`. -/
def exSt : AppState := initApp "KEY" ⟨2024, 1, 7⟩

def emptyDf : Df := ⟨[], []⟩

def emptyTable : RawTable := ⟨[], []⟩

def defaultRow : Row := ⟨⟨1970, 1, 1⟩, []⟩

/-- A feed body with three records on two dates (2024-01-05 twice,
2024-01-06 once), all ten-column-relevant dtypes populated. -/
def csv6 : String :=
  "latitude,bright_ti4,acq_date,frp\n-20.5,330.0,2024-01-05,1.5\n-21.0,331.0,2024-01-05,2.5\n-22.0,332.0,2024-01-06,3.5\n"

def fetch6 : String → FetchOutcome := fun _ => .response 200 csv6

def df6 : Df := (get_fire_data_brazil exSt "T" fetch6 5).getD emptyDf

/-- The summary dict the handler builds for `csv6`, before the render. -/
def sb6 : SummaryBody :=
  (buildSummaryBody df6).toOption.getD ⟨⟨0, "", "", 0, none⟩, [], []⟩

/-- A feed body whose header has no `frp` column. -/
def csv4 : String :=
  "latitude,bright_ti4,acq_date\n-20.5,330.0,2024-01-05\n-21.0,331.0,2024-01-06\n"

def fetch4 : String → FetchOutcome := fun _ => .response 200 csv4

def t4 : RawTable := (parseCsv csv4).toOption.getD emptyTable

def df4 : Df := (get_fire_data_brazil exSt "T" fetch4 5).getD emptyDf

/-- A feed body whose header has no `bright_ti4` column. -/
def csv10 : String := "latitude,longitude,acq_date\n-20.5,-49.1,2024-01-05\n"

def fetch10 : String → FetchOutcome := fun _ => .response 200 csv10

def t10 : RawTable := (parseCsv csv10).toOption.getD emptyTable

def df10 : Df := (get_fire_data_brazil exSt "T" fetch10 5).getD emptyDf

/-- A feed body with two records tied on `acq_date` (marked `c1` and `c2`,
in that upstream order) and a later third record `c3`. -/
def csv5 : String :=
  "confidence,acq_date\nc1,2024-01-05\nc2,2024-01-05\nc3,2024-01-06\n"

def fetch5 : String → FetchOutcome := fun _ => .response 200 csv5

def t5 : RawTable := (parseCsv csv5).toOption.getD emptyTable

def rows5 : List Row := (deriveRows t5 "T").toOption.getD []

def row5a : Row := rows5.getD 0 defaultRow

def row5b : Row := rows5.getD 1 defaultRow

def df5 : Df := (get_fire_data_brazil exSt "T" fetch5 5).getD emptyDf

/-- A two-record table with a valid `acq_date` column, for the transform
shape witness. -/
def tW : RawTable :=
  ⟨["confidence", "acq_date"], [["n", "2024-01-05"], ["h", "2024-01-06"]]⟩

def dfW : Df := (transformTable tW "T").toOption.getD emptyDf

/-- A table without an `acq_date` column. -/
def tNoDate : RawTable := ⟨["latitude", "acq_time"], [["-20.5", "0130"]]⟩

/-! ### Claim theorems -/

/-- C1: for every feed-related failure (any fetch outcome on which the
service yields no frame — upstream unreachable, non-200 status, too-short
body, empty table, parse error), `GET /fire_data_brazil` answers without
raising: the eager render accepts the fallback content (its data list is
empty, so it holds no `pd.Timestamp`), and the response is HTTP status 200
with the fallback envelope (`total_records = 0`, null period bounds, empty
data) — never a 4xx/5xx for such failures. -/
theorem read_fire_data_feed_failure_200_fallback (st : AppState) (nowStr : String)
    (fetch : String → FetchOutcome) (days : Int)
    (h : get_fire_data_brazil st nowStr fetch days = none) :
    read_fire_data st nowStr fetch days = .ok (200, fallbackEnvelope days nowStr) := by
  unfold read_fire_data
  rw [h]
  rfl

/-- Witness for C1 at a concrete failing fetch (upstream timeout). -/
theorem read_fire_data_feed_failure_200_fallback_witness :
    read_fire_data exSt "T" (fun _ => .timeout) 5 = .ok (200, fallbackEnvelope 5 "T") :=
  read_fire_data_feed_failure_200_fallback exSt "T" (fun _ => .timeout) 5 (by rfl)

/-- C2: on every raw table the transform accepts, it emits exactly one
record per input row; every record carries all ten fixed columns; a fixed
column absent upstream (other than the two derived ones) is filled with
null, never omitted; and the records are ordered by `acq_date`
descending. -/
theorem transform_shape_count_columns_order (t : RawTable) (nowStr : String) (df : Df)
    (h : transformTable t nowStr = .ok df) :
    df.rows.length = t.rows.length
  ∧ (∀ r ∈ df.rows, ∀ c ∈ expected_cols, (dfLookup r.cells c).isSome = true)
  ∧ (∀ r ∈ df.rows, ∀ c ∈ expected_cols, c ∉ t.header →
      c ≠ "semana_ano" → c ≠ "mes_ano" → dfLookup r.cells c = some Cell.null)
  ∧ df.rows.Pairwise (fun a b => Date.le b.date a.date = true) := by
  refine ⟨transformTable_rows_length h, ?_, ?_, transformTable_sorted h⟩
  · intro r hr c hc
    rw [dfLookup_isSome_iff, transformTable_row_keys h r hr]
    obtain ⟨rows, _, hcols, _⟩ := transformTable_ok h
    rw [hcols]
    by_cases hpre : c ∈ dfColumnsPreFill t
    · exact List.mem_append_left _ hpre
    · exact List.mem_append_right _ ((mem_fillCols_iff t c).mpr ⟨hc, hpre⟩)
  · intro r hr c hc hhdr hsw hmw
    obtain ⟨r0, raw, i, _, _, hderive, hfill⟩ := transformTable_rows_mem h r hr
    obtain ⟨_, hcells⟩ := deriveRow_ok hderive
    have hnotdc : c ≠ "data_coleta" ∧ c ≠ "dia_semana" := by
      have hforall : ∀ x ∈ expected_cols, x ≠ "data_coleta" ∧ x ≠ "dia_semana" := by decide
      exact hforall c hc
    have hder : c ∉ derivedColNames := by
      intro hm
      simp only [derivedColNames, List.mem_cons, List.not_mem_nil, or_false] at hm
      rcases hm with rfl | rfl | rfl | rfl
      · exact hnotdc.1 rfl
      · exact hsw rfl
      · exact hmw rfl
      · exact hnotdc.2 rfl
    have hpre : c ∉ dfColumnsPreFill t := by
      intro hm
      rcases List.mem_append.mp hm with hm | hm
      · exact hhdr hm
      · exact hder hm
    have h1 : dfLookup r0.cells c = none := by
      rw [dfLookup_eq_none_iff, hcells, List.map_append, headerCellsAux_keys,
        derivedCells_keys]
      intro hm
      exact hpre hm
    rw [hfill]
    show dfLookup (r0.cells ++ (fillCols t).map (fun n => (n, Cell.null))) c = some Cell.null
    rw [dfLookup_append_of_none _ h1]
    exact dfLookup_nullFill _ _ ((mem_fillCols_iff t c).mpr ⟨hc, hpre⟩)

/-- Witness for C2 at a concrete two-row table. -/
theorem transform_shape_count_columns_order_witness :
    transformTable tW "T" = .ok dfW ∧
    dfW.rows.length = tW.rows.length ∧
    (∀ r ∈ dfW.rows, ∀ c ∈ expected_cols, (dfLookup r.cells c).isSome = true) := by
  have h : transformTable tW "T" = .ok dfW := by rfl
  have hthm := transform_shape_count_columns_order tW "T" dfW h
  exact ⟨h, hthm.1, hthm.2.1⟩

/-- C3: the service never raises — it is a total function whose result on
every input is either the no-data signal `none` or a nonempty record
sequence; and a table with a missing or unparseable `acq_date` column fails
the whole transform with an error (which the service turns into `none`)
rather than yielding records. -/
theorem get_fire_data_total_none_or_nonempty (st : AppState) (nowStr : String)
    (fetch : String → FetchOutcome) (days : Int) :
    (get_fire_data_brazil st nowStr fetch days = none ∨
      ∃ df, get_fire_data_brazil st nowStr fetch days = some df ∧ df.rows ≠ [])
  ∧ (∀ t : RawTable, "acq_date" ∉ t.header → ∃ e, transformTable t nowStr = .error e)
  ∧ (∀ (t : RawTable) (i : Nat), indexOfStr "acq_date" t.header = some i →
      (∃ r ∈ t.rows, parseDate (r.getD i "") = none) →
      ∃ e, transformTable t nowStr = .error e) := by
  refine ⟨?_, ?_, ?_⟩
  · unfold get_fire_data_brazil
    rcases hcl : classifyFetch (fetch (serviceUrl st days)) with s | _ | _ | _ | m | _ | t
    · exact Or.inl rfl
    · exact Or.inl rfl
    · exact Or.inl rfl
    · exact Or.inl rfl
    · exact Or.inl rfl
    · exact Or.inl rfl
    · dsimp only
      rcases ht : transformTable t nowStr with e | df
      · exact Or.inl rfl
      · refine Or.inr ⟨df, rfl, ?_⟩
        have hne := classifyFetch_table_ne_nil hcl
        intro hnil
        have hlen := transformTable_rows_length ht
        rw [hnil] at hlen
        exact hne (List.length_eq_zero.mp hlen.symm)
  · intro t hhdr
    have hd : deriveRows t nowStr = .error "KeyError" := by
      unfold deriveRows
      rw [indexOfStr_eq_none hhdr]
    exact ⟨"KeyError", by unfold transformTable; rw [hd]; rfl⟩
  · intro t i hi hex
    obtain ⟨r, hr, hpd⟩ := hex
    have hrow : deriveRow t nowStr i r = .error "to_datetime" := by
      unfold deriveRow
      rw [hpd]
    obtain ⟨e2, he2⟩ := mapMExcept_error_of_mem hr hrow
    have hd : deriveRows t nowStr = .error e2 := by
      unfold deriveRows
      rw [hi]
      exact he2
    exact ⟨e2, by unfold transformTable; rw [hd]; rfl⟩

/-- Witness for C3 at a concrete table with no `acq_date` column. -/
theorem get_fire_data_total_none_or_nonempty_witness :
    ∃ e, transformTable tNoDate "T" = .error e :=
  (get_fire_data_total_none_or_nonempty exSt "T" (fun _ => .timeout) 5).2.1
    tNoDate (by decide)

/-- C4 evidence: on an upstream table with no `frp` column the summary
endpoint does not return a null `avg_radiative_power` — the transform has
filled `frp` with nulls, so the `frp in df.columns` guard of line 164 is
true, the dead `else None` branch is skipped, and `float(df[frp].mean())`
is evaluated over an all-null column, ending in an unhandled aggregation
error instead of any JSON response. -/
theorem summary_frp_absent_errors_not_null :
    t4.header.contains "frp" = false
  ∧ get_fire_data_brazil exSt "T" fetch4 5 = some df4
  ∧ df4.columns.contains "frp" = true
  ∧ colCells df4 "frp" = [Cell.null, Cell.null]
  ∧ fire_data_summary exSt "T" fetch4 5 = .error .meanOfNonNumeric := by
  refine ⟨by decide, by rfl, by decide, by decide, by rfl⟩

/-- C6 evidence: on the concrete three-record feed with dates D1, D1, D2
the handler builds the line 158-168 summary dict with a two-entry `by_day`
holding counts (D1, 2) and (D2, 1) and `total_fires = 3` — and in general
`by_day` holds exactly the pairs (date, row count of that date) for the
distinct dates of the frame — but the eager `JSONResponse` render rejects
the group-dict keys (`datetime.date` for `by_day`, numpy unsigned integers
for `by_week`), so the endpoint raises unhandled instead of returning the
claimed 200 body. -/
theorem summary_by_day_counts_render_rejected :
    (buildSummaryBody df6 = .ok sb6
      ∧ sb6.by_day = [(⟨2024, 1, 5⟩, 2), (⟨2024, 1, 6⟩, 1)]
      ∧ sb6.by_day.length = 2
      ∧ sb6.overall_summary.total_fires = 3
      ∧ summaryJsonOk sb6 = false
      ∧ fire_data_summary exSt "T" fetch6 5 = .error .groupKeysUnserializable)
  ∧ (∀ (rows : List Row) (d : Date) (n : Nat),
        (d, n) ∈ byDay rows ↔ d ∈ rows.map (·.date) ∧ n = (rows.map (·.date)).count d) := by
  refine ⟨⟨by rfl, by decide, by decide, by rfl, by rfl, by rfl⟩, ?_⟩
  intro rows d n
  exact groupCounts_mem_iff dateLeP (rows.map (·.date)) d n

/-- C7: for every `days` outside [1, 10] passed directly to the service,
the warning guard of line 49 fires (line 50 logs the out-of-range warning)
and the value is replaced by 10, so the whole fetch-and-transform behaves
exactly as a call with `days = 10` — for every network oracle. -/
theorem days_out_of_range_clamped_to_ten (st : AppState) (nowStr : String)
    (fetch : String → FetchOutcome) (days : Int) (h : days < 1 ∨ 10 < days) :
    daysOutOfRange days = true ∧
    get_fire_data_brazil st nowStr fetch days = get_fire_data_brazil st nowStr fetch 10 := by
  have hg : daysOutOfRange days = true := by
    simp only [daysOutOfRange, decide_eq_true_eq]
    exact h
  have h10 : daysOutOfRange 10 = false := by decide
  have hcl : clampDays days = clampDays 10 := by
    simp [clampDays, hg, h10]
  refine ⟨hg, ?_⟩
  unfold get_fire_data_brazil serviceUrl
  rw [hcl]

/-- Witness for C7 at the below-range value `days = 0`. -/
theorem days_out_of_range_clamped_to_ten_witness :
    daysOutOfRange 0 = true ∧
    get_fire_data_brazil exSt "T" (fun _ => .timeout) 0
      = get_fire_data_brazil exSt "T" (fun _ => .timeout) 10 :=
  days_out_of_range_clamped_to_ten exSt "T" (fun _ => .timeout) 0 (Or.inl (by decide))

/-- C8: the fetch outcome is classified in source order — any status other
than 200 (including 400 and 403, which the line 63 condition lists
explicitly) is the HTTP-error result regardless of the body; at status 200
a stripped body under 10 characters is the empty-response result regardless
of its parse; then a parse with zero rows is the no-data result; and only a
200 response with a long-enough body parsing to at least one row reaches
the transform, whose outcome the service returns. -/
theorem fetch_outcome_classified_in_order (status : Nat) (text : String) :
    (status ≠ 200 → classifyFetch (.response status text) = .httpError status)
  ∧ (status = 200 → strippedLen text < 10 →
        classifyFetch (.response status text) = .emptyResponse)
  ∧ (∀ t : RawTable, status = 200 → 10 ≤ strippedLen text → parseCsv text = .ok t →
        t.rows = [] → classifyFetch (.response status text) = .noData)
  ∧ (∀ t : RawTable, status = 200 → 10 ≤ strippedLen text → parseCsv text = .ok t →
        t.rows ≠ [] → classifyFetch (.response status text) = .table t)
  ∧ (∀ (st : AppState) (nowStr : String) (fetch : String → FetchOutcome) (days : Int)
        (t : RawTable), classifyFetch (fetch (serviceUrl st days)) = .table t →
        get_fire_data_brazil st nowStr fetch days = (transformTable t nowStr).toOption) := by
  refine ⟨?_, ?_, ?_, ?_, ?_⟩
  · intro hs
    unfold classifyFetch
    dsimp only
    rw [if_pos (Or.inr (Or.inr hs))]
  · intro hs hlen
    subst hs
    unfold classifyFetch
    dsimp only
    rw [if_neg (by decide), if_pos hlen]
  · intro t hs hlen hp hnil
    subst hs
    unfold classifyFetch
    dsimp only
    rw [if_neg (by decide), if_neg (by omega), hp]
    dsimp only
    rw [if_pos (List.isEmpty_iff.mpr hnil)]
  · intro t hs hlen hp hnil
    subst hs
    unfold classifyFetch
    dsimp only
    rw [if_neg (by decide), if_neg (by omega), hp]
    dsimp only
    rw [if_neg (by simpa [List.isEmpty_iff] using hnil)]
  · intro st nowStr fetch days t hcl
    unfold get_fire_data_brazil
    rw [hcl]
    dsimp only
    rcases ht : transformTable t nowStr with e | df
    · simp [Except.toOption]
    · simp [Except.toOption]

/-- Witness for C8 at a concrete 403 response. -/
theorem fetch_outcome_classified_in_order_witness :
    classifyFetch (.response 403 csv6) = .httpError 403 :=
  (fetch_outcome_classified_in_order 403 csv6).1 (by decide)

/-- C9: the date in the upstream URL is the one formatted from the
process-start date, fixed at module import; the URL of a request is the
same for every request handled by that process (it does not depend on the
wall clock of the request), and the service consults the network oracle
only at that URL. -/
theorem url_date_computed_at_process_start (key : String) (d0 : Date)
    (days : Int) (now1 : String) (f g : String → FetchOutcome)
    (hfg : f (serviceUrl (initApp key d0) days) = g (serviceUrl (initApp key d0) days)) :
    serviceUrl (initApp key d0) days = buildUrl key (clampDays days) (formatYMD d0)
  ∧ get_fire_data_brazil (initApp key d0) now1 f days
      = get_fire_data_brazil (initApp key d0) now1 g days := by
  refine ⟨rfl, ?_⟩
  unfold get_fire_data_brazil
  rw [hfg]

/-- Witness for C9 at a concrete process state and oracle. -/
theorem url_date_computed_at_process_start_witness :
    serviceUrl (initApp "KEY" ⟨2024, 1, 7⟩) 5
      = buildUrl "KEY" (clampDays 5) (formatYMD ⟨2024, 1, 7⟩)
  ∧ get_fire_data_brazil (initApp "KEY" ⟨2024, 1, 7⟩) "T" (fun _ => .timeout) 5
      = get_fire_data_brazil (initApp "KEY" ⟨2024, 1, 7⟩) "T" (fun _ => .timeout) 5 :=
  url_date_computed_at_process_start "KEY" ⟨2024, 1, 7⟩ 5 "T"
    (fun _ => .timeout) (fun _ => .timeout) rfl

/-- C10: a well-formed upstream body (one row, valid `acq_date`, no
`bright_ti4` column) makes the service succeed with `bright_ti4` filled as
null on every record, after which the summary handler computes
`float(df[bright_ti4].mean())` outside any exception handler over that
all-null column — so the summary endpoint ends in the unhandled aggregation
error, not in any 200 payload: the never-raise boundary of the service does
not cover the summary aggregation. -/
theorem summary_null_brightness_mean_unhandled :
    t10.header.contains "bright_ti4" = false
  ∧ get_fire_data_brazil exSt "T" fetch10 5 = some df10
  ∧ df10.rows.map (fun r => dfLookup r.cells "bright_ti4") = [some Cell.null]
  ∧ fire_data_summary exSt "T" fetch10 5 = .error .meanOfNonNumeric := by
  refine ⟨by decide, by rfl, by decide, by rfl⟩

end FireData
